import Mathlib

/-!
Verification of the voice-agent-tester core against its specification.

The development shallowly embeds the two source modules:

* `src/voice-agent-tester.js` — the per-run event broker
  (`waitForAudioEvent` / the exposed `__publishEvent` callback /
  `clearAudioEventQueue` / the sweep in `close`), and the step executor
  (`executeStep`, the step handlers, and the step loop of `runScenario`).
* `src/provider-import.js` — the post-import configuration retry loop
  (`configureImportedAssistant`) and the validation / reuse-classification
  part of `importAssistantsFromProvider`.

Stateful JavaScript is embedded as explicit state passing; async callers of
fallible operations are embedded as functions into `Except`; the identity
semantics of JavaScript function references (`===` on closures) is embedded by
tagging each waiter's two resolve closures with distinct reference values.
-/

set_option linter.unusedVariables false

/-! ## Event broker (voice-agent-tester.js lines 20, 35-272, 330-350, 368-397)

The broker state is `this.pendingPromises`, a JS `Map` from event type to an
array of `{resolve, reject, timeoutId}` records.  A JS `Map` preserves
insertion order, so it is embedded as an association list with unique keys;
`mapGet` / `mapSet` / `mapDelete` mirror `Map.get` / `Map.set` /
`Map.delete`.
-/

/-- Identity of a JS resolve closure.  Each `waitForAudioEvent` call creates
two distinct closures for waiter `i`: the executor's own `resolve`
(embedded as `(i, false)`) and `wrappedResolve` (embedded as `(i, true)`).
JS `===` on functions is reference equality, embedded as equality of tags. -/
abbrev ResolveRef := Nat × Bool

/-- One record stored in a pending-promises array:
`{ resolve: wrappedResolve, reject, timeoutId }` (line 259). -/
structure PendingEntry where
  resolveRef : ResolveRef
  rejectRef : Nat
  timeoutId : Nat
deriving DecidableEq, Repr

abbrev EventType := String

/-- `this.pendingPromises : Map eventType -> Array of PendingEntry`. -/
abbrev PendingMap := List (EventType × List PendingEntry)

/-- `Map.get`. -/
def mapGet : PendingMap → EventType → Option (List PendingEntry)
  | [], _ => none
  | (k, v) :: rest, t => if k = t then some v else mapGet rest t

/-- `Map.set`: overwrite in place when the key exists, append otherwise. -/
def mapSet : PendingMap → EventType → List PendingEntry → PendingMap
  | [], t, v => [(t, v)]
  | (k, w) :: rest, t, v =>
      if k = t then (k, v) :: rest else (k, w) :: mapSet rest t v

/-- `Map.delete`. -/
def mapDelete : PendingMap → EventType → PendingMap
  | [], _ => []
  | (k, v) :: rest, t => if k = t then rest else (k, v) :: mapDelete rest t

/-- The resolve reference stored in the queue by `waitForAudioEvent`:
`wrappedResolve` (lines 247-259). -/
def wrappedResolveRef (waiterId : Nat) : ResolveRef := (waiterId, true)

/-- The resolve reference captured by the timeout handler closure:
the executor's original `resolve` (line 139). -/
def originalResolveRef (waiterId : Nat) : ResolveRef := (waiterId, false)

/-- The record pushed by `waitForAudioEvent` line 259:
`{ resolve: wrappedResolve, reject, timeoutId }`. -/
def mkPendingEntry (waiterId timeoutId : Nat) : PendingEntry :=
  { resolveRef := wrappedResolveRef waiterId
    rejectRef := waiterId
    timeoutId := timeoutId }

/-- Registration part of `waitForAudioEvent` (lines 256-259): ensure the
array exists, then push the entry at its end. -/
def registerWaiter (m : PendingMap) (t : EventType) (e : PendingEntry) :
    PendingMap :=
  let m1 := if (mapGet m t).isSome then m else mapSet m t []
  mapSet m1 t (((mapGet m1 t).getD []) ++ [e])

/-- A `waitForAudioEvent` call as it affects the broker state: registers an
entry whose stored resolve is the wrapped closure. -/
def waitForAudioEventRegister (m : PendingMap) (t : EventType)
    (waiterId timeoutId : Nat) : PendingMap :=
  registerWaiter m t (mkPendingEntry waiterId timeoutId)

/-- The `__publishEvent` callback (lines 330-350): if the array for the
event type is non-empty, `shift` its first entry, delete the key when the
array becomes empty, and resolve that entry; otherwise do nothing (the event
is dropped).  Returns the new state and the entry resolved, if any. -/
def publishEvent (m : PendingMap) (t : EventType) :
    PendingMap × Option PendingEntry :=
  match mapGet m t with
  | some (e :: rest) =>
      let m1 := mapSet m t rest
      ((if rest.isEmpty then mapDelete m1 t else m1), some e)
  | _ => (m, none)

/-- State change performed by the timeout handler (lines 137-145):
`promises.findIndex(p => p.resolve === resolve)`, `splice` on a hit, delete
the key when the array becomes empty.  `origRef` is the reference the
handler compares against (the executor's original `resolve`). -/
def timeoutSplice (m : PendingMap) (t : EventType) (origRef : ResolveRef) :
    PendingMap :=
  let promises := (mapGet m t).getD []
  match promises.findIdx? (fun p => decide (p.resolveRef = origRef)) with
  | none => m
  | some i =>
      let rest := promises.eraseIdx i
      if rest.isEmpty then mapDelete m t else mapSet m t rest

/-- The timeout handler of waiter `waiterId`: it searches for the original
executor `resolve`, not the stored `wrappedResolve`. -/
def timeoutHandler (m : PendingMap) (t : EventType) (waiterId : Nat) :
    PendingMap :=
  timeoutSplice m t (originalResolveRef waiterId)

/-- Rejections produced when the broker is torn down. -/
inductive BrokerReject
  /-- `new Error("Event queue cleared while waiting for " + eventType)`
  (line 268). -/
  | queueCleared (t : EventType)
  /-- `new Error("Browser closed while waiting for " + eventType)`
  (line 379). -/
  | browserClosed (t : EventType)
deriving DecidableEq, Repr

/-- `clearAudioEventQueue` (lines 263-272): reject every pending entry in
map order with the queue-cleared error, then clear the map.  Returns the new
state and the emitted rejections. -/
def clearAudioEventQueue (m : PendingMap) : PendingMap × List BrokerReject :=
  ([], m.flatMap (fun kv => kv.2.map (fun _ => BrokerReject.queueCleared kv.1)))

/-- The rejection sweep inside `close` (lines 376-382): identical shape, with
the browser-closed error. -/
def closeSweep (m : PendingMap) : PendingMap × List BrokerReject :=
  ([], m.flatMap (fun kv => kv.2.map (fun _ => BrokerReject.browserClosed kv.1)))

/-- Number of outstanding waiter entries across all event types. -/
def totalWaiters (m : PendingMap) : Nat :=
  (m.map (fun kv => kv.2.length)).sum

/-! ## Provider import (provider-import.js lines 180-244, 261-350) -/

/-- Outcome of one `fetch` attempt inside `configureImportedAssistant`:
the awaited response has `response.ok`, or it is an error response with an
HTTP status, or the awaited call threw (network error, caught at line 231). -/
inductive AttemptOutcome
  | success
  | failure (status : Nat)
  | thrown
deriving DecidableEq, Repr

/-- `INITIAL_DELAY_MS * Math.pow(2, attempt - 1)` (lines 217, 233). -/
def backoffDelay (attempt : Nat) : Nat := 500 * 2 ^ (attempt - 1)

/-- What a `configureImportedAssistant` call did: the boolean it returned and
the sleeps it performed, in order. -/
structure ConfigResult where
  success : Bool
  sleeps : List Nat
deriving DecidableEq, Repr

/-- The retry loop of `configureImportedAssistant` (lines 193-241), with the
outcome of the fetch on attempt `n` supplied by `outcome n`.  `MAX_RETRIES`
is 5; the fuel argument counts the remaining loop iterations, and the fuel-0
base case is the trailing `return false` on line 243. -/
def configureAttempts (outcome : Nat → AttemptOutcome) :
    Nat → Nat → ConfigResult
  | _, 0 => { success := false, sleeps := [] }
  | attempt, fuel + 1 =>
      match outcome attempt with
      | AttemptOutcome.success => { success := true, sleeps := [] }
      | AttemptOutcome.failure status =>
          if status = 404 ∧ attempt < 5 then
            let r := configureAttempts outcome (attempt + 1) fuel
            { success := r.success, sleeps := backoffDelay attempt :: r.sleeps }
          else
            { success := false, sleeps := [] }
      | AttemptOutcome.thrown =>
          if attempt < 5 then
            let r := configureAttempts outcome (attempt + 1) fuel
            { success := r.success, sleeps := backoffDelay attempt :: r.sleeps }
          else
            { success := false, sleeps := [] }

/-- `configureImportedAssistant`: run the loop from attempt 1. -/
def configureImportedAssistant (outcome : Nat → AttemptOutcome) : ConfigResult :=
  configureAttempts outcome 1 5

/-- `import_metadata` of an imported assistant, with `imported_at` already
parsed to epoch milliseconds (`new Date(importedAt).getTime()`, line 319);
`none` stands for an absent / falsy field. -/
structure ImportMetadata where
  import_id : Option String
  imported_at : Option Int
deriving DecidableEq, Repr

/-- One element of the import response `data` array. -/
structure ImportedAssistant where
  id : String
  name : String
  import_metadata : Option ImportMetadata
deriving DecidableEq, Repr

/-- What the tail of `importAssistantsFromProvider` produced on success:
the returned `assistantId`, whether configuration was attempted (meaning
the import was fresh) and, when attempted, what `configureImportedAssistant`
returned. -/
structure ImportOutcome where
  assistantId : String
  configAttempted : Bool
  configSucceeded : Option Bool
deriving DecidableEq, Repr

/-- Errors thrown by the validation part of `importAssistantsFromProvider`. -/
inductive ImportError
  /-- `No assistant was imported for ID ...` (line 306). -/
  | emptyImport (requested : String)
  /-- `Import mismatch: requested ... but got ...` (line 314). -/
  | importMismatch (requested : String) (got : Option String)
deriving DecidableEq, Repr

/-- `isReused` (line 319): `importedAt && (Date.now() - parsed > 60000)`. -/
def isReused (now : Int) (importedAt : Option Int) : Bool :=
  match importedAt with
  | none => false
  | some t => decide (now - t > 60000)

/-- Lines 302-345 of `importAssistantsFromProvider`: validate the import
response, classify fresh vs reused, configure fresh imports, and return
the imported id.  `now` is `Date.now()`; `configOutcome` supplies the
fetch outcomes of the configuration attempts. -/
def importAssistantsFromProvider (requestedId : String)
    (data : List ImportedAssistant) (now : Int)
    (configOutcome : Nat → AttemptOutcome) :
    Except ImportError ImportOutcome :=
  match data with
  | [] => Except.error (ImportError.emptyImport requestedId)
  | imported :: _ =>
      let importId := imported.import_metadata.bind (fun md => md.import_id)
      if importId = some requestedId then
        let importedAt := imported.import_metadata.bind (fun md => md.imported_at)
        if isReused now importedAt then
          Except.ok { assistantId := imported.id
                      configAttempted := false
                      configSucceeded := none }
        else
          let cfg := configureImportedAssistant configOutcome
          Except.ok { assistantId := imported.id
                      configAttempted := true
                      configSucceeded := some cfg.success }
      else
        Except.error (ImportError.importMismatch requestedId importId)

/-! ## Supporting lemmas about the Map embedding -/

theorem mapGet_mapSet_self (m : PendingMap) (t : EventType)
    (v : List PendingEntry) : mapGet (mapSet m t v) t = some v := by
  induction m with
  | nil => simp [mapSet, mapGet]
  | cons kv rest ih =>
      obtain ⟨k, w⟩ := kv
      by_cases h : k = t
      · simp [mapSet, mapGet, h]
      · simp [mapSet, mapGet, h, ih]

theorem mapGet_mapSet_ne (m : PendingMap) (t u : EventType)
    (v : List PendingEntry) (h : u ≠ t) :
    mapGet (mapSet m t v) u = mapGet m u := by
  have htu : ¬ (t = u) := fun hh => h hh.symm
  induction m with
  | nil => simp [mapSet, mapGet, htu]
  | cons kv rest ih =>
      obtain ⟨k, w⟩ := kv
      by_cases hk : k = t
      · subst hk
        simp [mapSet, mapGet, htu]
      · by_cases hu : k = u
        · simp [mapSet, mapGet, hk, hu, h]
        · simp [mapSet, mapGet, hk, hu, ih]

theorem mapGet_mapDelete_ne (m : PendingMap) (t u : EventType) (h : u ≠ t) :
    mapGet (mapDelete m t) u = mapGet m u := by
  induction m with
  | nil => simp [mapDelete]
  | cons kv rest ih =>
      obtain ⟨k, w⟩ := kv
      by_cases hk : k = t
      · subst hk
        have hku : ¬ (k = u) := fun hh => h hh.symm
        simp [mapDelete, mapGet, hku]
      · simp [mapDelete, mapGet, hk, ih]

theorem mapGet_eq_none_of_not_mem (m : PendingMap) (t : EventType)
    (h : t ∉ m.map Prod.fst) : mapGet m t = none := by
  induction m with
  | nil => simp [mapGet]
  | cons kv rest ih =>
      obtain ⟨k, w⟩ := kv
      simp only [List.map_cons, List.mem_cons] at h
      push_neg at h
      have hk : ¬ (k = t) := fun hh => h.1 hh.symm
      simp [mapGet, hk, ih h.2]

theorem mapGet_mapDelete_self (m : PendingMap) (t : EventType)
    (h : (m.map Prod.fst).Nodup) : mapGet (mapDelete m t) t = none := by
  induction m with
  | nil => simp [mapDelete, mapGet]
  | cons kv rest ih =>
      obtain ⟨k, w⟩ := kv
      simp only [List.map_cons, List.nodup_cons] at h
      by_cases hk : k = t
      · subst hk
        simp only [mapDelete, if_pos rfl]
        exact mapGet_eq_none_of_not_mem rest k h.1
      · simp [mapDelete, mapGet, hk, ih h.2]

theorem mem_keys_mapSet (m : PendingMap) (t u : EventType)
    (v : List PendingEntry) :
    u ∈ (mapSet m t v).map Prod.fst ↔ u ∈ m.map Prod.fst ∨ u = t := by
  induction m with
  | nil => simp [mapSet]
  | cons kv rest ih =>
      obtain ⟨k, w⟩ := kv
      by_cases hk : k = t
      · subst hk
        simp [mapSet, List.mem_cons]
        tauto
      · simp [mapSet, hk, List.mem_cons, ih]
        tauto

theorem nodup_keys_mapSet (m : PendingMap) (t : EventType)
    (v : List PendingEntry) (h : (m.map Prod.fst).Nodup) :
    ((mapSet m t v).map Prod.fst).Nodup := by
  induction m with
  | nil => simp [mapSet]
  | cons kv rest ih =>
      obtain ⟨k, w⟩ := kv
      simp only [List.map_cons, List.nodup_cons] at h
      by_cases hk : k = t
      · subst hk
        have hset : mapSet ((k, w) :: rest) k v = (k, v) :: rest := by
          simp [mapSet]
        rw [hset]
        simp only [List.map_cons, List.nodup_cons]
        exact ⟨h.1, h.2⟩
      · simp only [mapSet, if_neg hk, List.map_cons, List.nodup_cons]
        refine ⟨?_, ih h.2⟩
        intro hmem
        rcases (mem_keys_mapSet rest t k v).mp hmem with hin | heq
        · exact h.1 hin
        · exact hk heq

theorem flatMap_perEntry_length (l : PendingMap)
    (g : EventType × List PendingEntry → BrokerReject) :
    (l.flatMap (fun kv => kv.2.map (fun _ => g kv))).length = totalWaiters l := by
  induction l with
  | nil => simp [totalWaiters]
  | cons kv rest ih =>
      simp only [List.flatMap_cons, List.length_append, List.length_map,
        totalWaiters, List.map_cons, List.sum_cons] at ih ⊢
      omega

/-! ## Claim theorems: event broker -/

/-- C1: publishing an event of type `T` resolves at most one pending waiter
(the function returns at most one entry), namely the head of the FIFO queue
for `T` — the earliest-registered one, since registration appends at the
tail — and never touches the queue of any other type; with no waiter for `T`
outstanding, the broker state is unchanged and nothing is resolved, so the
event is dropped, not buffered, and a later `waitFor(T)` cannot observe it. -/
theorem publish_resolves_earliest_same_type_only (m : PendingMap)
    (t : EventType) (hkeys : (m.map Prod.fst).Nodup) :
    (∀ u, u ≠ t → mapGet (publishEvent m t).1 u = mapGet m u)
    ∧ ((mapGet m t).getD [] = [] → publishEvent m t = (m, none))
    ∧ (∀ e rest, mapGet m t = some (e :: rest) →
        (publishEvent m t).2 = some e
        ∧ mapGet (publishEvent m t).1 t
            = (if rest.isEmpty then none else some rest))
    ∧ (∀ e, mapGet (registerWaiter m t e) t
        = some (((mapGet m t).getD []) ++ [e])) := by
  refine ⟨?_, ?_, ?_, ?_⟩
  · intro u hu
    cases hm : mapGet m t with
    | none => simp [publishEvent, hm]
    | some l =>
        cases l with
        | nil => simp [publishEvent, hm]
        | cons e rest =>
            have h1 := mapGet_mapSet_ne m t u rest hu
            have h2 := mapGet_mapDelete_ne (mapSet m t rest) t u hu
            by_cases hr : rest.isEmpty <;>
              simp [publishEvent, hm, hr, h1, h2]
  · intro hm0
    cases hm : mapGet m t with
    | none => simp [publishEvent, hm]
    | some l =>
        cases l with
        | nil => simp [publishEvent, hm]
        | cons e rest =>
            rw [hm] at hm0
            simp at hm0
  · intro e rest hm
    have hns := nodup_keys_mapSet m t rest hkeys
    refine ⟨by simp [publishEvent, hm], ?_⟩
    by_cases hr : rest.isEmpty
    · simp [publishEvent, hm, hr, mapGet_mapDelete_self (mapSet m t rest) t hns]
    · simp [publishEvent, hm, hr, mapGet_mapSet_self]
  · intro e
    cases hm : mapGet m t with
    | none => simp [registerWaiter, hm, mapGet_mapSet_self]
    | some l => simp [registerWaiter, hm, mapGet_mapSet_self]

/-- A broker state with two `speechend` waiters and one `audiostart` waiter. -/
def exBrokerC1 : PendingMap :=
  [("speechend", [mkPendingEntry 0 10, mkPendingEntry 1 11]),
   ("audiostart", [mkPendingEntry 2 12])]

theorem publish_resolves_earliest_same_type_only_witness :
    (mapGet (publishEvent exBrokerC1 "speechend").1 "audiostart"
        = mapGet exBrokerC1 "audiostart")
    ∧ publishEvent exBrokerC1 "recordingstart" = (exBrokerC1, none)
    ∧ (publishEvent exBrokerC1 "speechend").2 = some (mkPendingEntry 0 10)
    ∧ mapGet (registerWaiter exBrokerC1 "speechend" (mkPendingEntry 3 13))
        "speechend"
        = some [mkPendingEntry 0 10, mkPendingEntry 1 11, mkPendingEntry 3 13] :=
  ⟨(publish_resolves_earliest_same_type_only exBrokerC1 "speechend"
      (by decide)).1 "audiostart" (by decide),
   (publish_resolves_earliest_same_type_only exBrokerC1 "recordingstart"
      (by decide)).2.1 (by decide),
   ((publish_resolves_earliest_same_type_only exBrokerC1 "speechend"
      (by decide)).2.2.1 (mkPendingEntry 0 10) [mkPendingEntry 1 11]
      (by decide)).1,
   (publish_resolves_earliest_same_type_only exBrokerC1 "speechend"
      (by decide)).2.2.2 (mkPendingEntry 3 13)⟩

/-- The broker state after a single `waitForAudioEvent("speechend", ...)`:
waiter 0, timeout id 7. -/
def leakState : PendingMap := waitForAudioEventRegister [] "speechend" 0 7

/-- Two waiters for `audiostart`: waiter 0 then waiter 1. -/
def leakState2 : PendingMap :=
  waitForAudioEventRegister
    (waitForAudioEventRegister [] "audiostart" 0 7) "audiostart" 1 8

/-- C2 (code bug): the timeout handler compares the executor's original
`resolve` against entries that store `wrappedResolve`
(`promises.findIndex(p => p.resolve === resolve)` at line 139 versus
`push({ resolve: wrappedResolve, ... })` at line 259), so the comparison
never succeeds and the timed-out waiter's entry is never removed from the
pending queue: the entry leaks, and a subsequent publish of that event type
is consumed by the already-settled stale entry instead of any live waiter. -/
theorem timeout_handler_leaks_entry :
    mapGet leakState "speechend" = some [mkPendingEntry 0 7]
    ∧ timeoutHandler leakState "speechend" 0 = leakState
    ∧ mapGet (timeoutHandler leakState "speechend" 0) "speechend"
        = some [mkPendingEntry 0 7]
    ∧ timeoutHandler leakState2 "audiostart" 0 = leakState2
    ∧ (publishEvent (timeoutHandler leakState2 "audiostart" 0) "audiostart").2
        = some (mkPendingEntry 0 7) := by
  decide

/-- C3: tearing the broker down fails all `N` outstanding waiters with the
queue-cleared (cancelled) error, clears every queue, is idempotent, and a
publish against the cleared state resolves nothing; the sweep in `close`
behaves the same way with its browser-closed error. -/
theorem clearAll_cancels_everything (m : PendingMap) :
    (clearAudioEventQueue m).1 = []
    ∧ ((clearAudioEventQueue m).2).length = totalWaiters m
    ∧ (∀ r ∈ (clearAudioEventQueue m).2, ∃ t, r = BrokerReject.queueCleared t)
    ∧ clearAudioEventQueue (clearAudioEventQueue m).1 = ([], [])
    ∧ (∀ t, publishEvent (clearAudioEventQueue m).1 t
        = ((clearAudioEventQueue m).1, none))
    ∧ (closeSweep m).1 = []
    ∧ ((closeSweep m).2).length = totalWaiters m
    ∧ (∀ r ∈ (closeSweep m).2, ∃ t, r = BrokerReject.browserClosed t) := by
  refine ⟨rfl, ?_, ?_, by simp [clearAudioEventQueue], ?_, rfl, ?_, ?_⟩
  · exact flatMap_perEntry_length m (fun kv => BrokerReject.queueCleared kv.1)
  · intro r hr
    simp only [clearAudioEventQueue, List.mem_flatMap, List.mem_map] at hr
    obtain ⟨kv, hkv, p, hp, hpr⟩ := hr
    exact ⟨kv.1, hpr.symm⟩
  · intro t
    simp [clearAudioEventQueue, publishEvent, mapGet]
  · exact flatMap_perEntry_length m (fun kv => BrokerReject.browserClosed kv.1)
  · intro r hr
    simp only [closeSweep, List.mem_flatMap, List.mem_map] at hr
    obtain ⟨kv, hkv, p, hp, hpr⟩ := hr
    exact ⟨kv.1, hpr.symm⟩

/-- A broker state with three outstanding waiters across two event types. -/
def exBrokerC3 : PendingMap :=
  [("audiostop", [mkPendingEntry 0 20, mkPendingEntry 1 21]),
   ("recordingcomplete", [mkPendingEntry 2 22])]

theorem clearAll_cancels_everything_witness :
    ((clearAudioEventQueue exBrokerC3).2).length = totalWaiters exBrokerC3
    ∧ clearAudioEventQueue (clearAudioEventQueue exBrokerC3).1 = ([], [])
    ∧ publishEvent (clearAudioEventQueue exBrokerC3).1 "audiostop"
        = ((clearAudioEventQueue exBrokerC3).1, none) :=
  ⟨(clearAll_cancels_everything exBrokerC3).2.1,
   (clearAll_cancels_everything exBrokerC3).2.2.2.1,
   (clearAll_cancels_everything exBrokerC3).2.2.2.2.1 "audiostop"⟩

/-! ## Claim theorems: provider import -/

/-- First attempt throws (network error), second succeeds. -/
def netErrorOutcome : Nat → AttemptOutcome :=
  fun n => if n = 1 then AttemptOutcome.thrown else AttemptOutcome.success

/-- C8 counterexample: the first configuration attempt fails with a thrown
network error — not a 404 response — yet `configureImportedAssistant` does
not fail immediately: it sleeps 500ms, retries (catch block, lines 231-237),
and the retry succeeds.  This contradicts the claim that any non-404 error
fails the configuration immediately without retry. -/
theorem config_nonRetryable_counterexample :
    netErrorOutcome 1 ≠ AttemptOutcome.failure 404
    ∧ netErrorOutcome 1 ≠ AttemptOutcome.success
    ∧ configureImportedAssistant netErrorOutcome
        ≠ { success := false, sleeps := [] }
    ∧ configureImportedAssistant netErrorOutcome
        = { success := true, sleeps := [500] } := by
  decide

/-- C8 (amended): post-import configuration retries on a 404 response or on
a thrown network error, with delays of exactly 500, 1000, 2000 and 4000 ms
after attempts 1-4; a failure on attempt 5 is downgraded to a warning (the
function returns `false` rather than throwing); a non-404 error response
fails the configuration immediately, with no retry and no sleep. -/
theorem config_retry_backoff (outcome : Nat → AttemptOutcome) :
    ((∀ n, 1 ≤ n → n ≤ 5 → outcome n = AttemptOutcome.failure 404) →
        configureImportedAssistant outcome
          = { success := false, sleeps := [500, 1000, 2000, 4000] })
    ∧ (∀ s, s ≠ 404 → outcome 1 = AttemptOutcome.failure s →
        configureImportedAssistant outcome
          = { success := false, sleeps := [] })
    ∧ (outcome 1 = AttemptOutcome.thrown → outcome 2 = AttemptOutcome.success →
        configureImportedAssistant outcome = { success := true, sleeps := [500] })
    ∧ (∀ k, 1 ≤ k → k ≤ 4 →
        (∀ n, 1 ≤ n → n ≤ k → outcome n = AttemptOutcome.failure 404) →
        outcome (k + 1) = AttemptOutcome.success →
        configureImportedAssistant outcome
          = { success := true,
              sleeps := (List.range k).map (fun i => 500 * 2 ^ i) })
    ∧ ((∀ n, 1 ≤ n → n ≤ 5 → outcome n = AttemptOutcome.thrown) →
        configureImportedAssistant outcome
          = { success := false, sleeps := [500, 1000, 2000, 4000] }) := by
  refine ⟨?_, ?_, ?_, ?_, ?_⟩
  · intro h
    have h1 := h 1 (by norm_num) (by norm_num)
    have h2 := h 2 (by norm_num) (by norm_num)
    have h3 := h 3 (by norm_num) (by norm_num)
    have h4 := h 4 (by norm_num) (by norm_num)
    have h5 := h 5 (by norm_num) (by norm_num)
    simp [configureImportedAssistant, configureAttempts, h1, h2, h3, h4, h5,
      backoffDelay]
  · intro s hs h1
    simp [configureImportedAssistant, configureAttempts, h1, hs]
  · intro h1 h2
    simp [configureImportedAssistant, configureAttempts, h1, h2, backoffDelay]
  · intro k hk1 hk4 h hsucc
    interval_cases k
    · have h1 := h 1 (by norm_num) (by norm_num)
      simp only [configureImportedAssistant, configureAttempts, h1, hsucc,
        backoffDelay]
      decide
    · have h1 := h 1 (by norm_num) (by norm_num)
      have h2 := h 2 (by norm_num) (by norm_num)
      simp only [configureImportedAssistant, configureAttempts, h1, h2, hsucc,
        backoffDelay]
      decide
    · have h1 := h 1 (by norm_num) (by norm_num)
      have h2 := h 2 (by norm_num) (by norm_num)
      have h3 := h 3 (by norm_num) (by norm_num)
      simp only [configureImportedAssistant, configureAttempts, h1, h2, h3,
        hsucc, backoffDelay]
      decide
    · have h1 := h 1 (by norm_num) (by norm_num)
      have h2 := h 2 (by norm_num) (by norm_num)
      have h3 := h 3 (by norm_num) (by norm_num)
      have h4 := h 4 (by norm_num) (by norm_num)
      simp only [configureImportedAssistant, configureAttempts, h1, h2, h3, h4,
        hsucc, backoffDelay]
      decide
  · intro h
    have h1 := h 1 (by norm_num) (by norm_num)
    have h2 := h 2 (by norm_num) (by norm_num)
    have h3 := h 3 (by norm_num) (by norm_num)
    have h4 := h 4 (by norm_num) (by norm_num)
    have h5 := h 5 (by norm_num) (by norm_num)
    simp [configureImportedAssistant, configureAttempts, h1, h2, h3, h4, h5,
      backoffDelay]

/-- Every attempt gets a 404 response. -/
def all404Outcome : Nat → AttemptOutcome := fun _ => AttemptOutcome.failure 404

theorem config_retry_backoff_witness :
    configureImportedAssistant all404Outcome
      = { success := false, sleeps := [500, 1000, 2000, 4000] } :=
  (config_retry_backoff all404Outcome).1 (fun n h1 h5 => rfl)

/-- C9: an empty import result fails the import with an error, a mismatched
`import_metadata.import_id` fails the import with an error, and whenever
the import succeeds the echoed import id is exactly the requested one and the
returned identifier is that resource's own id — no substituted resource is
ever used. -/
theorem import_mismatch_always_fails (requestedId : String)
    (data : List ImportedAssistant) (now : Int)
    (co : Nat → AttemptOutcome) :
    (data = [] → importAssistantsFromProvider requestedId data now co
        = Except.error (ImportError.emptyImport requestedId))
    ∧ (∀ a rest, data = a :: rest →
        a.import_metadata.bind (fun md => md.import_id) ≠ some requestedId →
        importAssistantsFromProvider requestedId data now co
          = Except.error (ImportError.importMismatch requestedId
              (a.import_metadata.bind (fun md => md.import_id))))
    ∧ (∀ o, importAssistantsFromProvider requestedId data now co
          = Except.ok o →
        ∃ a rest, data = a :: rest
          ∧ a.import_metadata.bind (fun md => md.import_id) = some requestedId
          ∧ o.assistantId = a.id) := by
  refine ⟨?_, ?_, ?_⟩
  · intro h
    subst h
    rfl
  · intro a rest h hne
    subst h
    simp [importAssistantsFromProvider, hne]
  · intro o h
    cases data with
    | nil => simp [importAssistantsFromProvider] at h
    | cons a rest =>
        by_cases hid : a.import_metadata.bind (fun md => md.import_id)
            = some requestedId
        · refine ⟨a, rest, rfl, hid, ?_⟩
          by_cases hr : isReused now
              (a.import_metadata.bind (fun md => md.imported_at))
          · simp [importAssistantsFromProvider, hid, hr] at h
            simp [← h]
          · simp [importAssistantsFromProvider, hid, hr] at h
            simp [← h]
        · simp [importAssistantsFromProvider, hid] at h

/-- Every attempt gets a non-404 error response. -/
def all500Outcome : Nat → AttemptOutcome := fun _ => AttemptOutcome.failure 500

/-- An import response echoing a different external id than requested. -/
def mismatchAssistant : ImportedAssistant :=
  { id := "telnyx-2", name := "Agent2",
    import_metadata := some { import_id := some "other", imported_at := none } }

theorem import_mismatch_always_fails_witness :
    importAssistantsFromProvider "ext-2" [] 0 all500Outcome
      = Except.error (ImportError.emptyImport "ext-2")
    ∧ importAssistantsFromProvider "ext-2" [mismatchAssistant] 0 all500Outcome
      = Except.error (ImportError.importMismatch "ext-2" (some "other")) := by
  constructor
  · exact (import_mismatch_always_fails "ext-2" [] 0 all500Outcome).1 rfl
  · have h := (import_mismatch_always_fails "ext-2" [mismatchAssistant] 0
      all500Outcome).2.1 mismatchAssistant [] rfl (by decide)
    rw [h]
    rfl

/-- C10: an imported assistant whose `import_metadata.imported_at` is absent,
or whose timestamp is at most 60000 ms old, is classified as freshly created
and configuration is attempted on it; only a timestamp strictly more than
60000 ms in the past classifies it as reused, skipping configuration; in
every case the function returns the imported assistant's own id, even when
configuration fails (`configureImportedAssistant` returns a boolean and
never throws). -/
theorem fresh_import_configuration (requestedId : String)
    (a : ImportedAssistant) (rest : List ImportedAssistant) (now : Int)
    (co : Nat → AttemptOutcome)
    (hid : a.import_metadata.bind (fun md => md.import_id)
        = some requestedId) :
    (a.import_metadata.bind (fun md => md.imported_at) = none →
        importAssistantsFromProvider requestedId (a :: rest) now co
          = Except.ok
              { assistantId := a.id, configAttempted := true,
                configSucceeded :=
                  some (configureImportedAssistant co).success })
    ∧ (∀ ts, a.import_metadata.bind (fun md => md.imported_at) = some ts →
        now - ts ≤ 60000 →
        importAssistantsFromProvider requestedId (a :: rest) now co
          = Except.ok
              { assistantId := a.id, configAttempted := true,
                configSucceeded :=
                  some (configureImportedAssistant co).success })
    ∧ (∀ ts, a.import_metadata.bind (fun md => md.imported_at) = some ts →
        now - ts > 60000 →
        importAssistantsFromProvider requestedId (a :: rest) now co
          = Except.ok
              { assistantId := a.id, configAttempted := false,
                configSucceeded := none }) := by
  refine ⟨?_, ?_, ?_⟩
  · intro hat
    simp [importAssistantsFromProvider, hid, hat, isReused]
  · intro ts hat hle
    have hnot : ¬ (60000 < now - ts) := not_lt.mpr hle
    simp [importAssistantsFromProvider, hid, hat, isReused, hnot]
  · intro ts hat hgt
    simp [importAssistantsFromProvider, hid, hat, isReused, hgt]

/-- A freshly imported assistant (no `imported_at`) echoing the requested id. -/
def freshAssistant : ImportedAssistant :=
  { id := "telnyx-1", name := "Agent",
    import_metadata := some { import_id := some "ext-1", imported_at := none } }

theorem fresh_import_configuration_witness :
    importAssistantsFromProvider "ext-1" [freshAssistant] 0 all500Outcome
      = Except.ok
          { assistantId := "telnyx-1", configAttempted := true,
            configSucceeded := some false } := by
  have h := (fresh_import_configuration "ext-1" freshAssistant [] 0
    all500Outcome (by decide)).1 (by decide)
  rw [h]
  rfl

/-! ## Step executor (voice-agent-tester.js lines 491-1083)

The step executor and the step loop of `runScenario` are embedded as an
explicit state-passing interpreter.  The state carries the trace of
externally visible operations performed so far and two oracle positions; the
environment answers the n-th awaited page/network operation
(`opReply`) and the n-th `waitForAudioEvent` (`waitReply`).  A
`WaitReply.published` answer means the event was published before the
timeout fired; `WaitReply.timedOut` means the deadline fired first, carrying
the diagnostics snapshot `collectDiagnostics` would produce.  The
out-of-scope automation preamble of `runScenario` (launch, script injection,
`goto`, network idle, initial sleep) is collapsed into one fallible
`"prepare"` page operation. -/

/-- Errors raised inside step execution. -/
inductive JsError
  /-- `Timeout waiting for eventType event after N ms`, with the diagnostics
  snapshot appended to the message when debug mode is on (lines 147-241). -/
  | timeoutEvent (eventType : String) (ms : Nat) (diag : Option String)
  /-- A validation error thrown directly by a handler. -/
  | stepError (msg : String)
  /-- A rejected awaited page/network operation. -/
  | opThrown (msg : String)
deriving DecidableEq, Repr

/-- Answer to one `waitForAudioEvent`. -/
inductive WaitReply
  | published (payload : String)
  | timedOut (diag : Option String)
deriving DecidableEq, Repr

/-- Answer to one awaited page or network operation. -/
inductive OpReply
  | ok
  | thrown (msg : String)
deriving DecidableEq, Repr

/-- The environment a run executes against. -/
structure ExecEnv where
  waitReply : Nat → WaitReply
  opReply : Nat → OpReply
  fileExists : String → Bool
  savedPath : String
  transcription : String
  evalScore : Int

/-- Run configuration: `this.debug` and whether `this.reportGenerator` is
set. -/
structure ExecCfg where
  debug : Bool
  hasReporter : Bool
deriving DecidableEq, Repr

/-- Externally visible operations, recorded in execution order. -/
inductive Eff
  | pageOp (op : String) (arg : String)
  | waitEvent (eventType : String) (timeoutMs : Nat)
  | sleepMs (ms : Nat)
  | saveWav (audioData : String)
  | transcribe (path : String)
  | evaluateTranscription (prompt : String)
  /-- `console.log("Unknown action: " + action)` (line 540). -/
  | logUnknown (action : String)
  /-- `console.error` of the full error message. -/
  | logErr (e : JsError)
  /-- `console.error` of the first line of the error message only
  (lines 563-565, 1062-1064). -/
  | logErrShort (e : JsError)
  | recordMetric (name : String)
  | beginRun
  | endRun (success : Bool)
  | closeBrowser
deriving DecidableEq, Repr

/-- Interpreter state: oracle positions and the trace so far. -/
structure ExecSt where
  waitPos : Nat
  opPos : Nat
  trace : List Eff
deriving DecidableEq, Repr

/-- A computation that may fail, threading `ExecSt`. -/
def ExecM (α : Type) := ExecSt → (Except JsError α) × ExecSt

def pureE {α : Type} (a : α) : ExecM α := fun s => (Except.ok a, s)

/-- `await x; continue with f` — an error short-circuits. -/
def seqE {α β : Type} (x : ExecM α) (f : α → ExecM β) : ExecM β := fun s =>
  match x s with
  | (Except.ok a, s1) => f a s1
  | (Except.error e, s1) => (Except.error e, s1)

def throwE {α : Type} (e : JsError) : ExecM α := fun s => (Except.error e, s)

/-- An awaited page/automation operation; the environment decides whether it
resolves or rejects. -/
def performOp (env : ExecEnv) (op arg : String) : ExecM Unit := fun s =>
  let s1 : ExecSt := { waitPos := s.waitPos, opPos := s.opPos + 1,
                       trace := s.trace ++ [Eff.pageOp op arg] }
  match env.opReply s.opPos with
  | OpReply.ok => (Except.ok (), s1)
  | OpReply.thrown m => (Except.error (JsError.opThrown m), s1)

/-- `waitForAudioEvent(eventType, timeout)` (lines 35-261) as seen by its
caller: the promise resolves with the event payload if the event is
published before the timeout fires, and rejects with the timeout error
otherwise; the diagnostics snapshot is embedded in the error only in debug
mode (`collectDiagnostics` returns null otherwise, line 41). -/
def waitForAudioEvent (env : ExecEnv) (debug : Bool) (t : String)
    (timeout : Nat) : ExecM String := fun s =>
  let s1 : ExecSt := { waitPos := s.waitPos + 1, opPos := s.opPos,
                       trace := s.trace ++ [Eff.waitEvent t timeout] }
  match env.waitReply s.waitPos with
  | WaitReply.published pl => (Except.ok pl, s1)
  | WaitReply.timedOut diag =>
      (Except.error (JsError.timeoutEvent t timeout
        (if debug then diag else none)), s1)

/-- `saveAudioAsWAV` (lines 957-980): writes the WAV file and returns its
path; rethrows on failure. -/
def saveAudioAsWAV (env : ExecEnv) (audio : String) : ExecM String := fun s =>
  let s1 : ExecSt := { waitPos := s.waitPos, opPos := s.opPos + 1,
                       trace := s.trace ++ [Eff.saveWav audio] }
  match env.opReply s.opPos with
  | OpReply.ok => (Except.ok env.savedPath, s1)
  | OpReply.thrown m =>
      (Except.error (JsError.opThrown ("Failed to save WAV: " ++ m)), s1)

/-- The external transcription collaborator (`transcribeAudio`). -/
def transcribeAudio (env : ExecEnv) (path : String) : ExecM String := fun s =>
  let s1 : ExecSt := { waitPos := s.waitPos, opPos := s.opPos + 1,
                       trace := s.trace ++ [Eff.transcribe path] }
  match env.opReply s.opPos with
  | OpReply.ok => (Except.ok env.transcription, s1)
  | OpReply.thrown m => (Except.error (JsError.opThrown m), s1)

/-- The external evaluation collaborator (`evaluateTranscription`),
returning the numeric score. -/
def evaluateTranscription (env : ExecEnv) (transcription prompt : String) :
    ExecM Int := fun s =>
  let s1 : ExecSt := { waitPos := s.waitPos, opPos := s.opPos + 1,
                       trace := s.trace ++ [Eff.evaluateTranscription prompt] }
  match env.opReply s.opPos with
  | OpReply.ok => (Except.ok env.evalScore, s1)
  | OpReply.thrown m => (Except.error (JsError.opThrown m), s1)

/-- `catch (error) { console.error(...); throw error; }` — log, rethrow. -/
def catchLogRethrow {α : Type} (act : ExecM α) : ExecM α := fun s =>
  match act s with
  | (Except.ok a, s1) => (Except.ok a, s1)
  | (Except.error e, s1) =>
      (Except.error e, { s1 with trace := s1.trace ++ [Eff.logErr e] })

/-- One declarative scenario step; `none` stands for an absent field. -/
structure Step where
  action : String
  selector : Option String := none
  text : Option String := none
  file : Option String := none
  time : Option Nat := none
  evaluation : Option String := none
  metrics : Option (List String) := none
deriving DecidableEq, Repr

/-- JS truthiness check `!x` for an optional string: absent or empty. -/
def strFalsy : Option String → Bool
  | none => true
  | some s => s.isEmpty

/-- JS truthiness check `!x` for an optional number: absent or zero. -/
def natFalsy : Option Nat → Bool
  | none => true
  | some n => n == 0

/-- `handleClick` (lines 570-578). -/
def handleClick (env : ExecEnv) (step : Step) : ExecM Unit :=
  if strFalsy step.selector then
    throwE (JsError.stepError "No selector specified for click action")
  else
    seqE (performOp env "waitForSelector" (step.selector.getD "")) (fun _ =>
      performOp env "click" (step.selector.getD ""))

/-- `handleWaitForVoice` (lines 580-588): wait for `audiostart` with the
default 30000ms timeout. -/
def handleWaitForVoice (env : ExecEnv) (cfg : ExecCfg) : ExecM Unit :=
  seqE (waitForAudioEvent env cfg.debug "audiostart" 30000) (fun _ => pureE ())

/-- `handleWaitForSilence` (lines 590-598). -/
def handleWaitForSilence (env : ExecEnv) (cfg : ExecCfg) : ExecM Unit :=
  seqE (waitForAudioEvent env cfg.debug "audiostop" 30000) (fun _ => pureE ())

/-- `handleWait` (lines 600-608). -/
def handleWait (env : ExecEnv) (step : Step) : ExecM Unit :=
  if strFalsy step.selector then
    throwE (JsError.stepError "No selector specified for wait action")
  else
    performOp env "waitForSelector" (step.selector.getD "")

/-- `handleSpeak` (lines 610-687): validate text/file, check the audio file
exists, trigger playback in the page, then block on `speechend` with the
default 30000ms timeout; on timeout, log and rethrow (lines 681-686). -/
def handleSpeak (env : ExecEnv) (cfg : ExecCfg) (step : Step) : ExecM Unit :=
  if strFalsy step.text && strFalsy step.file then
    throwE (JsError.stepError "No text or file specified for speak action")
  else if !strFalsy step.text && !strFalsy step.file then
    throwE (JsError.stepError "Cannot specify both text and file for speak action")
  else if !strFalsy step.file then
    if env.fileExists (step.file.getD "") then
      seqE (performOp env "speakFromFile" (step.file.getD "")) (fun _ =>
        catchLogRethrow
          (seqE (waitForAudioEvent env cfg.debug "speechend" 30000)
            (fun _ => pureE ())))
    else
      throwE (JsError.stepError ("Audio file not found: " ++ step.file.getD ""))
  else
    seqE (performOp env "speakText" (step.text.getD "")) (fun _ =>
      catchLogRethrow
        (seqE (waitForAudioEvent env cfg.debug "speechend" 30000)
          (fun _ => pureE ())))

/-- `handleListen` (lines 689-746): start the recorder, wait in order for
`recordingstart`, `audiostart`, `audiostop`, stop the recorder, wait for
`recordingcomplete`, save the captured audio, transcribe it, evaluate the
transcription, and return `{ score }`; on any error, log and rethrow. -/
def handleListen (env : ExecEnv) (cfg : ExecCfg) (step : Step) :
    ExecM (List (String × Int)) :=
  if strFalsy step.evaluation then
    throwE (JsError.stepError "No evaluation prompt specified for listen action")
  else
    catchLogRethrow
      (seqE (performOp env "startRecording" "") (fun _ =>
        seqE (waitForAudioEvent env cfg.debug "recordingstart" 30000) (fun _ =>
          seqE (waitForAudioEvent env cfg.debug "audiostart" 30000) (fun _ =>
            seqE (waitForAudioEvent env cfg.debug "audiostop" 30000) (fun _ =>
              seqE (performOp env "stopRecording" "") (fun _ =>
                seqE (waitForAudioEvent env cfg.debug "recordingcomplete" 30000)
                  (fun audio =>
                    seqE (saveAudioAsWAV env audio) (fun path =>
                      seqE (transcribeAudio env path) (fun transcription =>
                        seqE (evaluateTranscription env transcription
                            (step.evaluation.getD ""))
                          (fun score => pureE [("score", score)]))))))))))

/-- `handleSleep` (lines 748-755). -/
def handleSleep (step : Step) : ExecM Unit :=
  if natFalsy step.time then
    throwE (JsError.stepError "No time specified for sleep action")
  else fun s =>
    (Except.ok (), { s with trace := s.trace ++ [Eff.sleepMs (step.time.getD 0)] })

/-- `handleWaitForElement` (lines 757-764). -/
def handleWaitForElement (env : ExecEnv) (step : Step) : ExecM Unit :=
  if strFalsy step.selector then
    throwE (JsError.stepError "No selector specified for wait_for_element action")
  else
    performOp env "waitForSelector" (step.selector.getD "")

/-- `handleType` (lines 766-784). -/
def handleType (env : ExecEnv) (step : Step) : ExecM Unit :=
  if strFalsy step.selector then
    throwE (JsError.stepError "No selector specified for type action")
  else if strFalsy step.text then
    throwE (JsError.stepError "No text specified for type action")
  else
    seqE (performOp env "waitForSelector" (step.selector.getD "")) (fun _ =>
      seqE (performOp env "focus" (step.selector.getD "")) (fun _ =>
        performOp env "type" (step.selector.getD "")))

/-- `handleFill` (lines 786-813); note the text check is `text === undefined`,
so an empty string is accepted. -/
def handleFill (env : ExecEnv) (step : Step) : ExecM Unit :=
  if strFalsy step.selector then
    throwE (JsError.stepError "No selector specified for fill action")
  else if step.text = none then
    throwE (JsError.stepError "No text specified for fill action")
  else
    seqE (performOp env "waitForSelector" (step.selector.getD "")) (fun _ =>
      performOp env "fillValue" (step.selector.getD ""))

/-- `handleSelect` (lines 815-855): selector check and `waitForSelector`,
with the element-type dispatch (dropdown / checkbox / radio / custom —
out-of-scope DOM automation) collapsed into one fallible page operation. -/
def handleSelect (env : ExecEnv) (step : Step) : ExecM Unit :=
  if strFalsy step.selector then
    throwE (JsError.stepError "No selector specified for select action")
  else
    seqE (performOp env "waitForSelector" (step.selector.getD "")) (fun _ =>
      performOp env "selectDispatch" (step.selector.getD ""))

/-- `handleScreenshot` (lines 932-955). -/
def handleScreenshot (env : ExecEnv) (step : Step) : ExecM Unit :=
  performOp env "screenshot" ""

/-- The action tags `executeStep` dispatches on (lines 501-538). -/
def knownActions : List String :=
  ["click", "wait_for_voice", "wait_for_silence", "wait", "speak", "listen",
   "sleep", "wait_for_element", "type", "fill", "select", "screenshot"]

/-- The `switch (action)` of `executeStep` (lines 501-541); the default case
logs the unknown action and falls through with no operation.  The returned
list is the handler result as consumed by the metrics block (only
`handleListen` returns an object). -/
def dispatchStep (env : ExecEnv) (cfg : ExecCfg) (step : Step) :
    ExecM (List (String × Int)) :=
  if step.action = "click" then
    seqE (handleClick env step) (fun _ => pureE [])
  else if step.action = "wait_for_voice" then
    seqE (handleWaitForVoice env cfg) (fun _ => pureE [])
  else if step.action = "wait_for_silence" then
    seqE (handleWaitForSilence env cfg) (fun _ => pureE [])
  else if step.action = "wait" then
    seqE (handleWait env step) (fun _ => pureE [])
  else if step.action = "speak" then
    seqE (handleSpeak env cfg step) (fun _ => pureE [])
  else if step.action = "listen" then
    handleListen env cfg step
  else if step.action = "sleep" then
    seqE (handleSleep step) (fun _ => pureE [])
  else if step.action = "wait_for_element" then
    seqE (handleWaitForElement env step) (fun _ => pureE [])
  else if step.action = "type" then
    seqE (handleType env step) (fun _ => pureE [])
  else if step.action = "fill" then
    seqE (handleFill env step) (fun _ => pureE [])
  else if step.action = "select" then
    seqE (handleSelect env step) (fun _ => pureE [])
  else if step.action = "screenshot" then
    seqE (handleScreenshot env step) (fun _ => pureE [])
  else fun s =>
    (Except.ok [], { s with trace := s.trace ++ [Eff.logUnknown step.action] })

/-- The metrics block of `executeStep` (lines 548-561): when a report
generator is present and the step has a `metrics` attribute, record
`elapsed_time` if requested, then record each handler-returned metric whose
name is requested. -/
def metricEffects (cfg : ExecCfg) (step : Step) (res : List (String × Int)) :
    List Eff :=
  match cfg.hasReporter, step.metrics with
  | true, some ms =>
      (if ms.contains "elapsed_time" then [Eff.recordMetric "elapsed_time"]
       else [])
      ++ res.filterMap (fun p =>
          if ms.contains p.1 then some (Eff.recordMetric p.1) else none)
  | _, _ => []

/-- `executeStep` (lines 491-568): dispatch, then the metrics block; on any
handler error, log the first line of the message and rethrow. -/
def executeStep (env : ExecEnv) (cfg : ExecCfg) (step : Step) : ExecM Unit :=
  fun s =>
    match dispatchStep env cfg step s with
    | (Except.ok res, s1) =>
        (Except.ok (),
         { s1 with trace := s1.trace ++ metricEffects cfg step res })
    | (Except.error e, s1) =>
        (Except.error e, { s1 with trace := s1.trace ++ [Eff.logErrShort e] })

/-- The step loop of `runScenario` (lines 1050-1054): strictly sequential;
the first error stops the loop. -/
def runSteps (env : ExecEnv) (cfg : ExecCfg) : List Step → ExecM Unit
  | [] => pureE ()
  | st :: rest => fun s =>
      match executeStep env cfg st s with
      | (Except.ok _, s1) => runSteps env cfg rest s1
      | (Except.error e, s1) => (Except.error e, s1)

/-- Result of one `runScenario` call: the propagated outcome and the trace. -/
structure RunOutcome where
  result : Except JsError Unit
  trace : List Eff
deriving Repr

/-- State at the start of `runScenario`: `beginRun` has been reported when a
report generator is present (lines 1022-1024). -/
def initialSt (cfg : ExecCfg) : ExecSt :=
  { waitPos := 0, opPos := 0,
    trace := if cfg.hasReporter then [Eff.beginRun] else [] }

/-- State after the automation preamble (`launch`, script injection, `goto`,
network idle, initial sleep — collapsed into the `"prepare"` operation)
succeeded. -/
def postPrepSt (cfg : ExecCfg) : ExecSt :=
  { waitPos := 0, opPos := 1,
    trace := (if cfg.hasReporter then [Eff.beginRun] else [])
      ++ [Eff.pageOp "prepare" ""] }

/-- `runScenario` (lines 1018-1083): combine app and scenario steps, run the
preamble, execute the steps in order, and in the `finally` block always
report `endRun` with the success flag and close the session; on error, log
the first line and rethrow (lines 1059-1065). -/
def runScenario (env : ExecEnv) (cfg : ExecCfg)
    (appSteps scenarioSteps : List Step) : RunOutcome :=
  let steps := appSteps ++ scenarioSteps
  let body : ExecM Unit :=
    seqE (performOp env "prepare" "") (fun _ =>
      seqE (runSteps env cfg steps) (fun _ => fun s =>
        (Except.ok (), { s with trace := s.trace ++ [Eff.sleepMs 500] })))
  match body (initialSt cfg) with
  | (Except.ok _, s1) =>
      { result := Except.ok ()
        trace := s1.trace
          ++ (if cfg.hasReporter then [Eff.endRun true] else [])
          ++ [Eff.closeBrowser] }
  | (Except.error e, s1) =>
      { result := Except.error e
        trace := s1.trace ++ [Eff.logErrShort e]
          ++ (if cfg.hasReporter then [Eff.endRun false] else [])
          ++ [Eff.closeBrowser] }

/-! ## Claim theorems: step executor -/

theorem runSteps_append (env : ExecEnv) (cfg : ExecCfg) (l1 l2 : List Step)
    (s : ExecSt) :
    runSteps env cfg (l1 ++ l2) s
      = (match runSteps env cfg l1 s with
         | (Except.ok _, s1) => runSteps env cfg l2 s1
         | (Except.error e, s1) => (Except.error e, s1)) := by
  induction l1 generalizing s with
  | nil => simp [runSteps, pureE]
  | cons st rest ih =>
      simp only [List.cons_append, runSteps]
      cases hx : executeStep env cfg st s with
      | mk r s1 =>
          cases r with
          | ok a => exact ih s1
          | error e => rfl

/-- C4: when a step handler raises an error, the step loop stops at that
step — the final state is exactly the state produced by the failing step, so
no later step contributes anything — and `runScenario` propagates the same
error as its result while the `finally` block reports the run as failed
(`endRun false`); the error is logged (short summary) at both levels, never
swallowed. -/
theorem handler_error_aborts_run (env : ExecEnv) (cfg : ExecCfg)
    (pre rest : List Step) (failStep : Step) (e : JsError) (s1 s2 : ExecSt)
    (hprep : env.opReply 0 = OpReply.ok)
    (hpre : runSteps env cfg pre (postPrepSt cfg) = (Except.ok (), s1))
    (hfail : executeStep env cfg failStep s1 = (Except.error e, s2)) :
    runSteps env cfg (pre ++ failStep :: rest) (postPrepSt cfg)
      = (Except.error e, s2)
    ∧ (runScenario env cfg (pre ++ failStep :: rest) []).result
        = Except.error e
    ∧ (runScenario env cfg (pre ++ failStep :: rest) []).trace
        = s2.trace ++ [Eff.logErrShort e]
          ++ (if cfg.hasReporter then [Eff.endRun false] else [])
          ++ [Eff.closeBrowser] := by
  have hperf : performOp env "prepare" "" (initialSt cfg)
      = (Except.ok (), postPrepSt cfg) := by
    simp [performOp, initialSt, postPrepSt, hprep]
  have habort : runSteps env cfg (pre ++ failStep :: rest) (postPrepSt cfg)
      = (Except.error e, s2) := by
    rw [runSteps_append, hpre]
    simp only [runSteps]
    rw [hfail]
  refine ⟨habort, ?_, ?_⟩ <;>
    simp [runScenario, seqE, List.append_nil, hperf, habort]

/-- The environment of the C4 witness run: every page operation resolves,
every wait times out. -/
def envC4 : ExecEnv :=
  { waitReply := fun _ => WaitReply.timedOut none
    opReply := fun _ => OpReply.ok
    fileExists := fun _ => true
    savedPath := "rec.wav"
    transcription := "hello"
    evalScore := 1 }

def cfgC4 : ExecCfg := { debug := false, hasReporter := true }

def failingStep : Step := { action := "wait_for_voice" }

def skippedStep : Step := { action := "click", selector := some "#btn" }

/-- State after the failing step of the C4 witness run. -/
def s2C4 : ExecSt :=
  { waitPos := 1, opPos := 1,
    trace := [Eff.beginRun, Eff.pageOp "prepare" "",
      Eff.waitEvent "audiostart" 30000,
      Eff.logErrShort (JsError.timeoutEvent "audiostart" 30000 none)] }

theorem handler_error_aborts_run_witness :
    (runScenario envC4 cfgC4 ([] ++ failingStep :: [skippedStep]) []).result
      = Except.error (JsError.timeoutEvent "audiostart" 30000 none)
    ∧ (runScenario envC4 cfgC4 ([] ++ failingStep :: [skippedStep]) []).trace
      = s2C4.trace
        ++ [Eff.logErrShort (JsError.timeoutEvent "audiostart" 30000 none)]
        ++ (if cfgC4.hasReporter then [Eff.endRun false] else [])
        ++ [Eff.closeBrowser] :=
  ⟨(handler_error_aborts_run envC4 cfgC4 [] [skippedStep] failingStep
      (JsError.timeoutEvent "audiostart" 30000 none) (postPrepSt cfgC4) s2C4
      rfl rfl rfl).2.1,
   (handler_error_aborts_run envC4 cfgC4 [] [skippedStep] failingStep
      (JsError.timeoutEvent "audiostart" 30000 none) (postPrepSt cfgC4) s2C4
      rfl rfl rfl).2.2⟩

/-- C5: a step whose action tag is none of the known handlers logs the
unknown action, performs no operation, does not fail, and execution proceeds
to the next step exactly as if the loop had started there (only the log
entry and any requested elapsed-time metric are added to the trace). -/
theorem unknown_action_is_noop (env : ExecEnv) (cfg : ExecCfg) (step : Step)
    (rest : List Step) (s : ExecSt)
    (h : step.action ∉ knownActions) :
    executeStep env cfg step s
      = (Except.ok (),
         { s with trace := s.trace ++ [Eff.logUnknown step.action]
                             ++ metricEffects cfg step [] })
    ∧ runSteps env cfg (step :: rest) s
      = runSteps env cfg rest
          { s with trace := s.trace ++ [Eff.logUnknown step.action]
                              ++ metricEffects cfg step [] } := by
  simp only [knownActions, List.mem_cons, List.not_mem_nil, or_false] at h
  push_neg at h
  obtain ⟨h1, h2, h3, h4, h5, h6, h7, h8, h9, h10, h11, h12⟩ := h
  have hstep : executeStep env cfg step s
      = (Except.ok (),
         { s with trace := s.trace ++ [Eff.logUnknown step.action]
                             ++ metricEffects cfg step [] }) := by
    simp [executeStep, dispatchStep, h1, h2, h3, h4, h5, h6, h7, h8, h9, h10,
      h11, h12, List.append_assoc]
  exact ⟨hstep, by simp [runSteps, hstep]⟩

def envC5 : ExecEnv :=
  { waitReply := fun _ => WaitReply.published "p"
    opReply := fun _ => OpReply.ok
    fileExists := fun _ => true
    savedPath := "o.wav"
    transcription := "t"
    evalScore := 2 }

def cfgC5 : ExecCfg := { debug := false, hasReporter := false }

def unknownStep : Step := { action := "hover" }

theorem unknown_action_is_noop_witness :
    executeStep envC5 cfgC5 unknownStep { waitPos := 0, opPos := 0, trace := [] }
      = (Except.ok (),
         { waitPos := 0, opPos := 0, trace := [Eff.logUnknown "hover"] }) :=
  (unknown_action_is_noop envC5 cfgC5 unknownStep []
    { waitPos := 0, opPos := 0, trace := [] } (by decide)).1

/-- A "speak" step with a supplied audio file and no inline text. -/
def speakFileStep (f : String) : Step := { action := "speak", file := some f }

/-- C6: a "speak" step with a supplied audio file triggers playback and then
blocks on `speechend` with the default 30000ms timeout; it succeeds exactly
when `speechend` is published before the timeout fires, and otherwise fails
with the timeout error, which embeds the diagnostics snapshot exactly when
debug mode is on. -/
theorem speak_succeeds_iff_speechend (env : ExecEnv) (cfg : ExecCfg)
    (f : String) (s : ExecSt)
    (hf : f.isEmpty = false)
    (hex : env.fileExists f = true)
    (hop : env.opReply s.opPos = OpReply.ok) :
    (∀ pl, env.waitReply s.waitPos = WaitReply.published pl →
      executeStep env cfg (speakFileStep f) s
        = (Except.ok (),
           { waitPos := s.waitPos + 1, opPos := s.opPos + 1,
             trace := s.trace ++ [Eff.pageOp "speakFromFile" f,
               Eff.waitEvent "speechend" 30000] }))
    ∧ (∀ diag, env.waitReply s.waitPos = WaitReply.timedOut diag →
      executeStep env cfg (speakFileStep f) s
        = (Except.error (JsError.timeoutEvent "speechend" 30000
              (if cfg.debug then diag else none)),
           { waitPos := s.waitPos + 1, opPos := s.opPos + 1,
             trace := s.trace ++ [Eff.pageOp "speakFromFile" f,
               Eff.waitEvent "speechend" 30000,
               Eff.logErr (JsError.timeoutEvent "speechend" 30000
                 (if cfg.debug then diag else none)),
               Eff.logErrShort (JsError.timeoutEvent "speechend" 30000
                 (if cfg.debug then diag else none))] })) := by
  constructor
  · intro pl hw
    simp [executeStep, dispatchStep, handleSpeak, speakFileStep, strFalsy,
      seqE, performOp, waitForAudioEvent, catchLogRethrow, pureE, hf, hex,
      hop, hw, metricEffects]
  · intro diag hw
    simp [executeStep, dispatchStep, handleSpeak, speakFileStep, strFalsy,
      seqE, performOp, waitForAudioEvent, catchLogRethrow, pureE, hf, hex,
      hop, hw, metricEffects]

def envC6ok : ExecEnv :=
  { waitReply := fun _ => WaitReply.published "done"
    opReply := fun _ => OpReply.ok
    fileExists := fun _ => true
    savedPath := "o.wav"
    transcription := "t"
    evalScore := 2 }

def envC6to : ExecEnv :=
  { waitReply := fun _ => WaitReply.timedOut (some "snapshot")
    opReply := fun _ => OpReply.ok
    fileExists := fun _ => true
    savedPath := "o.wav"
    transcription := "t"
    evalScore := 2 }

def cfgC6 : ExecCfg := { debug := true, hasReporter := false }

theorem speak_succeeds_iff_speechend_witness :
    executeStep envC6ok cfgC6 (speakFileStep "hello.wav")
        { waitPos := 0, opPos := 0, trace := [] }
      = (Except.ok (),
         { waitPos := 1, opPos := 1,
           trace := [Eff.pageOp "speakFromFile" "hello.wav",
             Eff.waitEvent "speechend" 30000] })
    ∧ executeStep envC6to cfgC6 (speakFileStep "hello.wav")
        { waitPos := 0, opPos := 0, trace := [] }
      = (Except.error
           (JsError.timeoutEvent "speechend" 30000 (some "snapshot")),
         { waitPos := 1, opPos := 1,
           trace := [Eff.pageOp "speakFromFile" "hello.wav",
             Eff.waitEvent "speechend" 30000,
             Eff.logErr (JsError.timeoutEvent "speechend" 30000
               (some "snapshot")),
             Eff.logErrShort (JsError.timeoutEvent "speechend" 30000
               (some "snapshot"))] }) :=
  ⟨(speak_succeeds_iff_speechend envC6ok cfgC6 "hello.wav"
      { waitPos := 0, opPos := 0, trace := [] } rfl rfl rfl).1 "done" rfl,
   (speak_succeeds_iff_speechend envC6to cfgC6 "hello.wav"
      { waitPos := 0, opPos := 0, trace := [] } rfl rfl rfl).2
      (some "snapshot") rfl⟩

/-- A "listen" step with an evaluation prompt. -/
def listenStep (ev : String) : Step :=
  { action := "listen", evaluation := some ev }

/-- C7: when every operation resolves and every awaited event is published,
a "listen" step performs exactly four waits in the order recording-start,
audio-start, audio-stop, recording-complete, starting the recorder before
the first wait and stopping it between the third and fourth, then saves the
audio captured by the recording-complete event, forwards it to the
transcription and evaluation collaborators, and returns the numeric score as
its handler result. -/
theorem listen_four_waits_and_score (env : ExecEnv) (cfg : ExecCfg)
    (ev : String) (pl : Nat → String) (s : ExecSt)
    (hev : ev.isEmpty = false)
    (hop : ∀ n, env.opReply n = OpReply.ok)
    (hw : ∀ n, env.waitReply n = WaitReply.published (pl n)) :
    handleListen env cfg (listenStep ev) s
      = (Except.ok [("score", env.evalScore)],
         { waitPos := s.waitPos + 4, opPos := s.opPos + 5,
           trace := s.trace ++ [Eff.pageOp "startRecording" "",
             Eff.waitEvent "recordingstart" 30000,
             Eff.waitEvent "audiostart" 30000,
             Eff.waitEvent "audiostop" 30000,
             Eff.pageOp "stopRecording" "",
             Eff.waitEvent "recordingcomplete" 30000,
             Eff.saveWav (pl (s.waitPos + 3)),
             Eff.transcribe env.savedPath,
             Eff.evaluateTranscription ev] }) := by
  simp [handleListen, listenStep, strFalsy, hev, seqE, performOp,
    waitForAudioEvent, saveAudioAsWAV, transcribeAudio, evaluateTranscription,
    catchLogRethrow, pureE, hop, hw]

def envC7 : ExecEnv :=
  { waitReply := fun _ => WaitReply.published "AUDIO"
    opReply := fun _ => OpReply.ok
    fileExists := fun _ => true
    savedPath := "out.wav"
    transcription := "hi there"
    evalScore := 7 }

def cfgC7 : ExecCfg := { debug := false, hasReporter := false }

theorem listen_four_waits_and_score_witness :
    handleListen envC7 cfgC7 (listenStep "agent greets")
        { waitPos := 0, opPos := 0, trace := [] }
      = (Except.ok [("score", 7)],
         { waitPos := 4, opPos := 5,
           trace := [Eff.pageOp "startRecording" "",
             Eff.waitEvent "recordingstart" 30000,
             Eff.waitEvent "audiostart" 30000,
             Eff.waitEvent "audiostop" 30000,
             Eff.pageOp "stopRecording" "",
             Eff.waitEvent "recordingcomplete" 30000,
             Eff.saveWav "AUDIO",
             Eff.transcribe "out.wav",
             Eff.evaluateTranscription "agent greets"] }) :=
  listen_four_waits_and_score envC7 cfgC7 "agent greets" (fun _ => "AUDIO")
    { waitPos := 0, opPos := 0, trace := [] } rfl (fun _ => rfl) (fun _ => rfl)
